import Mathlib

/-!
Shallow embedding of the LearnHub clickstream tracking subsystem.

Sources embedded here:
- `src/services/clickstream.js` (session id, IP resolution and caching,
  `trackEvent`, the convenience emitters),
- `src/hooks/useClickstream.js` (the returned function record, page-view
  de-duplication, unload throttling, error-capture throttling),
- `src/pages/Dashboard.jsx` (`handleEnrollClick`),
- the course page's `QuizComponent` (`handleSubmit`).

Modelling conventions:
- JavaScript values appearing in `additional_data` are modelled by `JsVal`;
  `undefined` and `null` are distinct constructors.
- Machine time is milliseconds since the Unix epoch as `Nat` (the model
  covers the epoch-onward range, which is the range `Date.now()` produces).
- `Date.prototype.toISOString` is implemented concretely (proleptic
  Gregorian calendar, `YYYY-MM-DDTHH:MM:SS.sssZ`).
- Caught JavaScript exceptions are modelled as `Exn` (an object with a
  `message` field, as thrown by the runtime and by libraries).
- Asynchronous steps are sequenced in program order; external outcomes
  (auth lookup, the three IP services, the store insert) are inputs of the
  environment record, and observable side effects (network attempts, store
  writes) are collected in a trace.
-/

/-- A JavaScript value as it appears in event payloads. -/
inductive JsVal where
  | str (s : String)
  | num (n : Int)
  | bool (b : Bool)
  | null
  | undefVal
  | obj (fields : List (String × JsVal))

/-- JavaScript truthiness for the values we model. -/
def jsTruthy : JsVal → Bool
  | .str s => s ≠ ""
  | .num n => n ≠ 0
  | .bool b => b
  | .null => false
  | .undefVal => false
  | .obj _ => true

/-- Template-literal stringification (`${v}`). -/
def jsValToStr : JsVal → String
  | .str s => s
  | .num n => toString n
  | .bool b => if b then "true" else "false"
  | .null => "null"
  | .undefVal => "undefined"
  | .obj _ => "[object Object]"

/-- Property read on a JS object literal built by spreads: the last
binding of a key wins, as in JavaScript object-literal evaluation. -/
def jsGet : List (String × JsVal) → String → Option JsVal
  | [], _ => none
  | (k, v) :: rest, key =>
    match jsGet rest key with
    | some r => some r
    | none => if k = key then some v else none

/-- `a || b` on an optionally-present string (empty string is falsy). -/
def jsOrS (v : Option String) (dflt : String) : String :=
  match v with
  | some s => if s = "" then dflt else s
  | none => dflt

/-- `x || null` on an optionally-present JS value. -/
def jsOrNull (v : Option JsVal) : Option JsVal :=
  match v with
  | some x => if jsTruthy x then some x else none
  | none => none

/-- Boolean list prefix test (chars). -/
def isPrefixB : List Char → List Char → Bool
  | [], _ => true
  | _ :: _, [] => false
  | a :: as, b :: bs => a = b && isPrefixB as bs

/-- Substring containment on char lists, by scanning every suffix. -/
def containsB (pat : List Char) : List Char → Bool
  | [] => isPrefixB pat []
  | c :: rest => isPrefixB pat (c :: rest) || containsB pat rest

/-- `String.prototype.includes`. -/
def jsIncludes (s pat : String) : Bool :=
  containsB pat.toList s.toList

/-- Remove the first occurrence of `'Z'` from a char list: the behaviour of
`s.replace('Z', '')` for the single-character pattern `'Z'`. -/
def replFirstZ : List Char → List Char
  | [] => []
  | c :: rest => if c = 'Z' then rest else c :: replFirstZ rest

/-- `s.replace('Z', '')` as used on ISO timestamp text. -/
def stripFirstZ (s : String) : String :=
  ⟨replFirstZ s.toList⟩

/-! ## Timestamp formatting (`Date#toISOString`, `Date#toLocaleString`) -/

/-- The decimal digit character for `k % 10`. -/
def digitChar (k : Nat) : Char :=
  match k % 10 with
  | 0 => '0' | 1 => '1' | 2 => '2' | 3 => '3' | 4 => '4'
  | 5 => '5' | 6 => '6' | 7 => '7' | 8 => '8' | _ => '9'

/-- Two-digit zero-padded decimal. -/
def pad2 (n : Nat) : List Char :=
  [digitChar (n / 10), digitChar n]

/-- Three-digit zero-padded decimal (milliseconds). -/
def pad3 (n : Nat) : List Char :=
  [digitChar (n / 100), digitChar (n / 10), digitChar n]

/-- Four-digit zero-padded decimal (years 1970–9999). -/
def pad4 (n : Nat) : List Char :=
  [digitChar (n / 1000), digitChar (n / 100), digitChar (n / 10), digitChar n]

/-- Proleptic-Gregorian civil date `(year, month, day)` from days since
1970-01-01 (the standard era-based conversion). -/
def civilFromDays (days : Nat) : Nat × Nat × Nat :=
  let z := days + 719468
  let era := z / 146097
  let doe := z % 146097
  let yoe := (doe - doe / 1460 + doe / 36524 - doe / 146096) / 365
  let y := yoe + era * 400
  let doy := doe - (365 * yoe + yoe / 4 - yoe / 100)
  let mp := (5 * doy + 2) / 153
  let d := doy - (153 * mp + 2) / 5 + 1
  let m := if mp < 10 then mp + 3 else mp - 9
  (if m ≤ 2 then y + 1 else y, m, d)

/-- The characters of `toISOString` output before the final `'Z'`:
`YYYY-MM-DDTHH:MM:SS.sss` for a millisecond Unix timestamp. -/
def isoBody (m : Nat) : List Char :=
  pad4 (civilFromDays (m / 86400000)).1 ++ '-' ::
  (pad2 (civilFromDays (m / 86400000)).2.1 ++ '-' ::
  (pad2 (civilFromDays (m / 86400000)).2.2 ++ 'T' ::
  (pad2 (m % 86400000 / 3600000) ++ ':' ::
  (pad2 (m % 86400000 / 60000 % 60) ++ ':' ::
  (pad2 (m % 86400000 / 1000 % 60) ++ '.' ::
  pad3 (m % 86400000 % 1000))))))

/-- `new Date(m).toISOString()`. -/
def isoOfMs (m : Nat) : String :=
  ⟨isoBody m ++ ['Z']⟩

/-- `toLocaleString('en-US', {...hour12: false})` as used for the
human-readable debugging timestamp: `MM/DD/YYYY, HH:MM:SS`. -/
def readableOfMs (m : Nat) : String :=
  ⟨pad2 (civilFromDays (m / 86400000)).2.1 ++ '/' ::
   (pad2 (civilFromDays (m / 86400000)).2.2 ++ '/' ::
   (pad4 (civilFromDays (m / 86400000)).1 ++ ',' :: ' ' ::
   (pad2 (m % 86400000 / 3600000) ++ ':' ::
   (pad2 (m % 86400000 / 60000 % 60) ++ ':' ::
   pad2 (m % 86400000 / 1000 % 60)))))⟩

/-! ## Data model of the tracking service (`src/services/clickstream.js`) -/

/-- A caught JavaScript exception: an object carrying a `message`
(`TypeError`s thrown by the runtime and `Error`s thrown by libraries). -/
structure Exn where
  message : String
deriving DecidableEq

/-- The `TypeError` raised by reading a property of `null`. -/
def typeErrorRead (field : String) : Exn :=
  ⟨"Cannot read properties of null (reading '" ++ field ++ "')"⟩

/-- The `TypeError` raised by calling a name bound to `undefined`. -/
def typeErrorCall (name : String) : Exn :=
  ⟨name ++ " is not a function"⟩

/-- The fields an event descriptor object may carry when passed to
`trackEvent` (absent fields are `none`, i.e. `undefined`). -/
structure EventData where
  event_context : Option String := none
  context : Option String := none
  component : Option String := none
  event_name : Option String := none
  name : Option String := none
  description : Option String := none
  origin : Option String := none
  additional_data : List (String × JsVal) := []
  course_id : Option JsVal := none
  lesson_id : Option JsVal := none

/-- The argument of `trackEvent`: an object, or `null` (property reads on
`null` throw `TypeError`). -/
inductive Descriptor where
  | null
  | obj (d : EventData)

/-- The row assembled by `trackEvent` and inserted into the `clickstream`
table ("Moodle format"). -/
structure ClickstreamEvent where
  user_id : String
  time : String
  event_context : String
  component : String
  event_name : String
  description : String
  origin : String
  ip_address : Option String
  session_id : String
  page_url : String
  user_agent : String
  additional_data : List (String × JsVal)
  course_id : Option JsVal
  lesson_id : Option JsVal

/-- The `error` half of a `{data, error}` result: the string literal for a
missing user, a store-returned error object, or a caught exception. -/
inductive TrackError where
  | str (s : String)
  | store (e : Exn)
  | exn (e : Exn)
deriving DecidableEq

/-- The `{data, error}` object returned by `trackEvent`. -/
structure TrackResult where
  data : Option JsVal
  error : Option TrackError

/-- Observable side effects of a tracking call. -/
inductive Effect where
  | netAttempt (url : String)
  | insertAttempt (row : ClickstreamEvent)

/-- Outcome of fetching one IP service: a network/parse failure, or a JSON
body with optional `ip` and `origin` fields. -/
inductive IPOutcome where
  | fail
  | ok (ip : Option String) (origin : Option String)

/-- Outcome of the store insert: success, a returned error object, or a
thrown exception. -/
inductive InsertOutcome where
  | ok
  | err (e : Exn)
  | throw (e : Exn)

/-- The browser/external environment a tracking call runs in. -/
structure TrackEnv where
  analyticsEnabled : Bool
  authUser : Except Exn (Option String)
  nowMs : Nat
  tzOffsetMin : Int
  randToken : String
  ipOut1 : IPOutcome
  ipOut2 : IPOutcome
  ipOut3 : IPOutcome
  insertOutcome : InsertOutcome
  href : String
  userAgent : String
  screenW : Nat
  screenH : Nat
  viewportW : Nat
  viewportH : Nat
  timezoneName : String
  language : String
  referrer : String

/-- The module-level mutable state: the `learnhub_session_id` slot of
`sessionStorage` and the module variable `cachedIP`. -/
structure TrackState where
  sessionStorage : Option String
  cachedIP : Option String
deriving DecidableEq

/-- `generateSessionId`: return the stored id, or mint
`session_${Date.now()}_${random}`; minting also clears the cached IP. -/
def generateSessionId (env : TrackEnv) (st : TrackState) : String × TrackState :=
  match st.sessionStorage with
  | some id => (id, st)
  | none =>
    let sid := "session_" ++ toString env.nowMs ++ "_" ++ env.randToken
    (sid, { sessionStorage := some sid, cachedIP := none })

/-- The ordered IP-service URL list tried by `getClientIP`. -/
def ipServiceUrls : List String :=
  ["https://api.ipify.org?format=json", "https://ipapi.co/json/", "https://httpbin.org/ip"]

/-- Extract an IP from one service response: `data.ip`, else `data.origin`
(httpbin format), each under JS truthiness. -/
def extractIP : IPOutcome → Option String
  | .fail => none
  | .ok ip origin =>
    if jsTruthy (.str (ip.getD "")) then ip
    else if jsTruthy (.str (origin.getD "")) then origin
    else none

/-- The `for (const service of services)` loop of `getClientIP`: each
iteration performs one network attempt; the first extracted IP wins. -/
def ipTry : List (String × IPOutcome) → Option String × List Effect
  | [] => (none, [])
  | (url, o) :: rest =>
    match extractIP o with
    | some ip => (some ip, [.netAttempt url])
    | none =>
      let r := ipTry rest
      (r.1, .netAttempt url :: r.2)

/-- The per-call pairing of service URLs with this run's outcomes. -/
def svcOutcomes (env : TrackEnv) : List (String × IPOutcome) :=
  [("https://api.ipify.org?format=json", env.ipOut1),
   ("https://ipapi.co/json/", env.ipOut2),
   ("https://httpbin.org/ip", env.ipOut3)]

/-- `getClientIP`: serve the cached value without touching the network;
otherwise try the services in order and cache the result (`"unknown"` on
exhaustion). -/
def getClientIP (env : TrackEnv) (st : TrackState) : String × TrackState × List Effect :=
  match st.cachedIP with
  | some ip => (ip, st, [])
  | none =>
    match ipTry (svcOutcomes env) with
    | (some ip, fx) => (ip, { st with cachedIP := some ip }, fx)
    | (none, fx) => ("unknown", { st with cachedIP := some "unknown" }, fx)

/-- Assembly of the `clickstreamEvent` object literal in `trackEvent`,
after the user, session id, timestamp and client IP are in hand. Caller
`additional_data` is spread first; the derived diagnostic fields follow
(so they are not overridable). -/
def mkClickstreamEvent (env : TrackEnv) (d : EventData) (uid sessionId timestamp : String)
    (clientIP : String) : ClickstreamEvent :=
  { user_id := uid
    time := timestamp
    event_context := jsOrS d.event_context (jsOrS d.context "")
    component := jsOrS d.component "System"
    event_name := jsOrS d.event_name (jsOrS d.name "Unknown Event")
    description := jsOrS d.description ""
    origin := jsOrS d.origin "web"
    ip_address := if clientIP ≠ "" ∧ clientIP ≠ "unknown" then some clientIP else none
    session_id := sessionId
    page_url := env.href
    user_agent := env.userAgent
    additional_data := d.additional_data ++
      [("screen_resolution", .str (toString env.screenW ++ "x" ++ toString env.screenH)),
       ("viewport_size", .str (toString env.viewportW ++ "x" ++ toString env.viewportH)),
       ("timezone", .str env.timezoneName),
       ("language", .str env.language),
       ("referrer", if env.referrer = "" then .null else .str env.referrer),
       ("utc_timestamp", .str (isoOfMs env.nowMs)),
       ("local_timestamp", .str (readableOfMs (((env.nowMs : Int) - env.tzOffsetMin * 60000).toNat))),
       ("timezone_offset", .num env.tzOffsetMin),
       ("timestamp_local", .str timestamp)]
    course_id := jsOrNull d.course_id
    lesson_id := jsOrNull d.lesson_id }

/-- `trackEvent`: the Event Normalizer. Mirrors the source control flow:
the disabled-path debug log reads `eventData.event_name` outside the
`try` block; inside the `try`, auth failure and missing user return early,
then session id, local timestamp, and client IP are computed, the row is
assembled (property reads on a `null` descriptor throw here, and are
caught), and the insert outcome is mapped to `{data, error}`. Any
exception inside the `try` becomes a returned `{data: null, error}`. -/
def trackEvent (env : TrackEnv) (st : TrackState) (ed : Descriptor) :
    Except Exn TrackResult × TrackState × List Effect :=
  if env.analyticsEnabled = false then
    match ed with
    | .null => (.error (typeErrorRead "event_name"), st, [])
    | .obj _ => (.ok ⟨none, none⟩, st, [])
  else
    match env.authUser with
    | .error e => (.ok ⟨none, some (.exn e)⟩, st, [])
    | .ok none => (.ok ⟨none, some (.str "No authenticated user")⟩, st, [])
    | .ok (some uid) =>
      let sid := generateSessionId env st
      let timestamp := stripFirstZ (isoOfMs (((env.nowMs : Int) - env.tzOffsetMin * 60000).toNat))
      let g := getClientIP env sid.2
      match ed with
      | .null => (.ok ⟨none, some (.exn (typeErrorRead "event_context"))⟩, g.2.1, g.2.2)
      | .obj d =>
        let row := mkClickstreamEvent env d uid sid.1 timestamp g.1
        match env.insertOutcome with
        | .throw e => (.ok ⟨none, some (.exn e)⟩, g.2.1, g.2.2 ++ [.insertAttempt row])
        | .err e => (.ok ⟨none, some (.store e)⟩, g.2.1, g.2.2 ++ [.insertAttempt row])
        | .ok => (.ok ⟨none, none⟩, g.2.1, g.2.2 ++ [.insertAttempt row])

/-- The rows whose insertion was attempted in a trace. -/
def emittedRows (fx : List Effect) : List ClickstreamEvent :=
  fx.filterMap fun e => match e with
    | .insertAttempt r => some r
    | .netAttempt _ => none

/-- The number of network attempts in a trace. -/
def netCount (fx : List Effect) : Nat :=
  (fx.filter fun e => match e with
    | .netAttempt _ => true
    | .insertAttempt _ => false).length

/-! ## Convenience emitters (`src/services/clickstream.js`) -/

/-- `getCurrentUserId`: returns the literal placeholder. Its comment says
the placeholder "will be replaced with actual user ID in the trackEvent
function". -/
def getCurrentUserId : String := "USER_ID"

/-- The descriptor built by `trackCourseView(courseId, courseName)`. -/
def trackCourseViewD (courseId : JsVal) (courseName : String) : EventData :=
  { component := some "System"
    event_name := some "Course viewed"
    event_context := some ("Course: " ++
      jsOrS (some courseName) ("Course ID " ++ jsValToStr courseId))
    description := some ("The user with id '" ++ getCurrentUserId ++
      "' viewed the course with id '" ++ jsValToStr courseId ++ "'.")
    origin := some "web"
    course_id := some courseId
    additional_data := [("course_name", .str courseName)] }

/-- The descriptor built by
`trackEngagement(elementType, action, elementId, additionalData)`;
`nowMs` feeds `new Date().toISOString()` for `interaction_timestamp`.
The caller-supplied `additionalData` is spread last. -/
def trackEngagementD (elementType action elementId : String)
    (additionalData : List (String × JsVal)) (nowMs : Nat) : EventData :=
  { component := some "Interaction"
    event_name := some (elementType ++ " " ++ action)
    event_context := some "User Interaction"
    description := some ("The user with id '" ++ getCurrentUserId ++ "' " ++
      action ++ " " ++ elementType ++ ": " ++ elementId)
    origin := some "web"
    additional_data :=
      [("element_type", .str elementType),
       ("element_id", .str elementId),
       ("action", .str action),
       ("interaction_timestamp", .str (isoOfMs nowMs))] ++ additionalData }

/-- The payload object handed to `trackQuizEvent`. -/
structure QuizData where
  title : Option String := none
  quizId : Option JsVal := none
  courseId : Option JsVal := none
  lessonId : Option JsVal := none
  score : Int := 0
  attemptNumber : Option Int := none
  timeTaken : Option Int := none
  answers : JsVal := .undefVal

/-- `quizData.title || quizData.quizId` interpolated into a template. -/
def quizTitleOrId (q : QuizData) : String :=
  jsOrS q.title (jsValToStr (q.quizId.getD .undefVal))

/-- The descriptor built by `trackQuizEvent(action, quizData)`; note
`passed: quizData.score >= 70`. -/
def trackQuizEventD (action : String) (q : QuizData) : EventData :=
  { component := some "Quiz"
    event_name := some ("Quiz " ++ action)
    event_context := some ("Quiz: " ++ quizTitleOrId q)
    description := some ("The user with id '" ++ getCurrentUserId ++ "' " ++
      action ++ " quiz '" ++ quizTitleOrId q ++ "' in course '" ++
      jsValToStr (q.courseId.getD .undefVal) ++ "'.")
    origin := some "web"
    course_id := q.courseId
    lesson_id := q.lessonId
    additional_data :=
      [("quiz_action", .str action),
       ("quiz_title", (q.title.map JsVal.str).getD .undefVal),
       ("quiz_id", q.quizId.getD .undefVal),
       ("score", .num q.score),
       ("attempt_number", (q.attemptNumber.map JsVal.num).getD .undefVal),
       ("time_taken_seconds", (q.timeTaken.map JsVal.num).getD .undefVal),
       ("answers", q.answers),
       ("passed", .bool (decide (70 ≤ q.score)))] }

/-! ## The `useClickstream` hook (`src/hooks/useClickstream.js`) -/

/-- The keys of the object returned by `useClickstream()`; the disabled
branch returns a record of no-op functions under different names than the
enabled branch. -/
def clickstreamHookKeys (enabled : Bool) : List String :=
  if enabled then
    ["track", "courseView", "lessonStart", "lessonComplete", "videoEvent",
     "quizEvent", "search", "navigation", "error", "engagement",
     "trackClick", "trackFormSubmit", "trackDownload", "trackLogin",
     "trackLogout", "trackRegistration"]
  else
    ["trackClick", "trackFormSubmit", "trackVideoProgress", "trackCourseView",
     "trackLessonStart", "trackLessonComplete", "trackQuizStart",
     "trackQuizComplete", "trackSearch", "trackError", "trackLogin",
     "trackLogout", "trackRegistration", "trackEngagement", "track"]

/-! ### Page-view de-duplication (first `useEffect`) -/

/-- Events the page-view effect can emit. -/
inductive PVEvent where
  | pageView (path : String) (previous : Option String)
  | nav (fromPath toPath : String)

/-- State of the page-view effect: the `lastPage` and
`hasTrackedCurrentPage` refs, plus the dependency value of the last effect
run (`none` before the first mount). -/
structure PVState where
  lastPage : String
  hasTracked : Bool
  pageDep : Option String

/-- The body of the page-view effect: track only when the path changed and
the current page was not yet tracked; navigation is additionally guarded by
a truthy (nonempty) previous path. -/
def pvEffectBody (st : PVState) (path : String) : PVState × List PVEvent :=
  if st.lastPage ≠ path ∧ st.hasTracked = false then
    ({ st with lastPage := path, hasTracked := true },
     PVEvent.pageView path (if st.lastPage ≠ path then some st.lastPage else none) ::
       (if st.lastPage ≠ "" ∧ st.lastPage ≠ path then [PVEvent.nav st.lastPage path] else []))
  else (st, [])

/-- One render at `path`: the effect re-runs only when its dependency
(`window.location.pathname`) changed; re-running first executes the
cleanup, which resets `hasTrackedCurrentPage`. -/
def pvRender (st : PVState) (path : String) : PVState × List PVEvent :=
  match st.pageDep with
  | none =>
    let r := pvEffectBody st path
    ({ r.1 with pageDep := some path }, r.2)
  | some dep =>
    if dep = path then (st, [])
    else
      let r := pvEffectBody { st with hasTracked := false } path
      ({ r.1 with pageDep := some path }, r.2)

/-- A sequence of renders from a state. -/
def pvRun (st : PVState) : List String → PVState × List PVEvent
  | [] => (st, [])
  | p :: rest =>
    let r := pvRender st p
    let r2 := pvRun r.1 rest
    (r2.1, r.2 ++ r2.2)

/-- Mounting the hook on a page whose path is `p0` (the refs initialize
`lastPage` to the current pathname) and then rendering `p0 :: rest`. -/
def pvMount (p0 : String) (rest : List String) : PVState × List PVEvent :=
  pvRun ⟨p0, false, none⟩ (p0 :: rest)

/-- Count of page-view events in a trace. -/
def pageViewCount (evs : List PVEvent) : Nat :=
  (evs.filter fun e => match e with
    | .pageView _ _ => true
    | .nav _ _ => false).length

/-- Count of navigation events in a trace. -/
def navCount (evs : List PVEvent) : Nat :=
  (evs.filter fun e => match e with
    | .pageView _ _ => false
    | .nav _ _ => true).length

/-- Number of consecutive-path changes in a render sequence starting after
`prev`. -/
def changeCount (prev : String) : List String → Nat
  | [] => 0
  | p :: rest => (if p ≠ prev then 1 else 0) + changeCount p rest

/-! ### Unload throttling (second `useEffect`) -/

/-- `Math.round(d / 1000)` for a nonnegative millisecond delta. -/
def jsRoundSec (d : Nat) : Nat := (d + 500) / 1000

/-- One `beforeunload` firing: elapsed milliseconds on the page and whether
`navigator.sendBeacon` is available. -/
structure UnloadFire where
  elapsedMs : Nat
  beacon : Bool

/-- The descriptor of a page-unload event. -/
def unloadD (path : String) (timeSpent : Nat) : EventData :=
  { component := some "System"
    event_name := some "Page unload"
    description := some ("User left page: " ++ path)
    additional_data :=
      [("time_spent_seconds", .num timeSpent),
       ("page_path", .str path)] }

/-- `handleBeforeUnload` over a page lifetime: the `unloadTracked` latch
suppresses repeats; the latch is set once the rounded time spent exceeds
2 (regardless of beacon availability); the event is sent only when
`sendBeacon` exists. Returns the `(elapsedMs, descriptor)` pairs actually
emitted. -/
def runUnload (path : String) (tracked : Bool) : List UnloadFire → List (Nat × EventData)
  | [] => []
  | f :: rest =>
    if tracked then runUnload path tracked rest
    else
      let ts := jsRoundSec f.elapsedMs
      if 2 < ts then
        (if f.beacon then [(f.elapsedMs, unloadD path ts)] else []) ++ runUnload path true rest
      else runUnload path false rest

/-! ### Error-capture throttling (third `useEffect`) -/

/-- An input to the global error listeners: an `error` event's message or
an `unhandledrejection` event's stringified reason. -/
inductive ErrInput where
  | err (msg : String)
  | rej (reason : String)

/-- One listener invocation: given the current `errorCount`, returns the
new count and the `trackError(type, message)` call made, if any. Both
handlers bail out at the cap *before* incrementing, and increment *before*
their respective filters run. -/
def errStep (count : Nat) : ErrInput → Nat × Option (String × String)
  | .err msg =>
    if 5 ≤ count then (count, none)
    else if jsIncludes msg "ResizeObserver" || jsIncludes msg "Non-Error promise rejection" then
      (count + 1, none)
    else (count + 1, some ("JavaScript Error", msg))
  | .rej reason =>
    if 5 ≤ count then (count, none)
    else if jsIncludes reason "TypeError" || jsIncludes reason "ReferenceError" then
      (count + 1, some ("Promise Rejection", reason))
    else (count + 1, none)

/-- A page lifetime of error/rejection deliveries: final counter and the
list of `trackError` calls made. -/
def runErrors (count : Nat) : List ErrInput → Nat × List (String × String)
  | [] => (count, [])
  | e :: rest =>
    let s := errStep count e
    let r := runErrors s.1 rest
    (r.1, s.2.toList ++ r.2)

/-! ## Call-site wiring (`Dashboard.jsx`, `QuizComponent`) -/

/-- Effects of the dashboard's enroll-click handler. -/
inductive DashEffect where
  | trackCall (d : EventData)
  | enroll (userId : String) (courseId : JsVal)
  | refreshData
  | consoleError (msg : String)

/-- `handleEnrollClick(course)` from `Dashboard.jsx`. The handler
destructures `trackEngagement` from `useClickstream()`; when that key is
absent from the returned record the binding is `undefined`, the call
throws `TypeError`, and the handler's `catch` logs and aborts, so neither
the engagement event nor `enrollInCourse` happens. In the disabled branch
the binding is a no-op, so no tracking call reaches `trackEvent`. -/
def handleEnrollClick (enabled : Bool) (user : Option String) (courseId : JsVal)
    (courseTitle : String) (nowMs : Nat) : List DashEffect :=
  match user with
  | none => []
  | some uid =>
    if "trackEngagement" ∈ clickstreamHookKeys enabled then
      (if enabled then
        [DashEffect.trackCall (trackEngagementD "button" "clicked"
          ("enroll-course-" ++ jsValToStr courseId)
          [("course_title", .str courseTitle)] nowMs)]
      else []) ++ [DashEffect.enroll uid courseId, DashEffect.refreshData]
    else
      [DashEffect.consoleError "Error enrolling in course:"]

/-- `selectedAnswers[question.id]` lookup in the submitted-answers map. -/
def answerFor (answers : List (Nat × Nat)) (qid : Nat) : Option Nat :=
  (answers.find? fun a => a.1 = qid).map Prod.snd

/-- The `forEach` tally of correct answers in `handleSubmit`. -/
def countCorrect (questions : List (Nat × Nat)) (answers : List (Nat × Nat)) : Nat :=
  questions.foldl (fun acc q => if answerFor answers q.1 = some q.2 then acc + 1 else acc) 0

/-- `Math.round((correctAnswers / totalQuestions) * 100)` under exact
rational arithmetic; this agrees with the JS double computation at the
ratios exercised here (e.g. 7/10). -/
def quizScore (correct total : Nat) : Nat :=
  (correct * 100 * 2 + total) / (2 * total)

/-- Effects of the quiz submit handler. -/
inductive QuizEffect where
  | setScore (n : Nat)
  | setSubmitted
  | trackQuiz (d : EventData)

/-- `handleSubmit` of `QuizComponent`: computes the score, sets component
state, then calls the destructured `trackQuizEvent`. That key is absent
from `useClickstream()`'s return in both branches, so the call throws
`TypeError` after the state updates, with no surrounding `try`; no quiz
event descriptor is ever produced. `questions` pairs a question id with
its correct answer index; `answers` is the selected-answers map. -/
def quizHandleSubmit (enabled : Bool) (questions answers : List (Nat × Nat))
    (lessonTitle : String) (courseId : Option JsVal) (lessonId : JsVal) :
    List QuizEffect × Option Exn :=
  let score := quizScore (countCorrect questions answers) questions.length
  let fx := [QuizEffect.setScore score, QuizEffect.setSubmitted]
  if "trackQuizEvent" ∈ clickstreamHookKeys enabled then
    (fx ++ [QuizEffect.trackQuiz (trackQuizEventD "completed"
      { title := some lessonTitle, courseId := courseId, lessonId := some lessonId,
        score := score, attemptNumber := some 1, timeTaken := some 0,
        answers := .obj (answers.map fun a => (toString a.1, JsVal.num a.2)) })], none)
  else
    (fx, some (typeErrorCall "trackQuizEvent"))

/-! ## Spec-side definitions (for refinement comparisons) -/

/-- Written from the spec's words: "resolution is attempted against an
ordered list of external services, the first success wins"; `none` models
exhaustion (which the spec maps to the `"unknown"` sentinel). -/
def specFirstSuccess : List IPOutcome → Option String
  | [] => none
  | o :: rest =>
    match extractIP o with
    | some ip => some ip
    | none => specFirstSuccess rest

/-! ## Concrete fixtures (used by witnesses and counterexamples) -/

/-- A fresh per-tab state: no session id stored, no cached IP. -/
def stFresh : TrackState := ⟨none, none⟩

/-- A concrete enabled environment with an authenticated user, one
reachable IP service, and a succeeding insert. -/
def envA : TrackEnv :=
  { analyticsEnabled := true
    authUser := .ok (some "u123")
    nowMs := 1700000000000
    tzOffsetMin := -120
    randToken := "k7f3q9x2p"
    ipOut1 := .fail
    ipOut2 := .ok (some "203.0.113.9") none
    ipOut3 := .fail
    insertOutcome := .ok
    href := "https://learnhub.example/dashboard"
    userAgent := "Mozilla/5.0"
    screenW := 1920
    screenH := 1080
    viewportW := 1280
    viewportH := 720
    timezoneName := "Europe/Berlin"
    language := "en-US"
    referrer := "" }

/-- `envA` with analytics disabled. -/
def envDisabled : TrackEnv := { envA with analyticsEnabled := false }

/-- `envA` with no authenticated user. -/
def envNoUser : TrackEnv := { envA with authUser := .ok none }

/-- `envA` with every IP service failing. -/
def envNoIP : TrackEnv := { envA with ipOut2 := .fail }

/-! ## Helper lemmas -/

theorem notMemAppend {c : Char} {l1 l2 : List Char} (h1 : c ∉ l1) (h2 : c ∉ l2) :
    c ∉ l1 ++ l2 := by
  intro h
  rcases List.mem_append.mp h with h | h
  · exact h1 h
  · exact h2 h

theorem notMemCons {c a : Char} {l : List Char} (h1 : c ≠ a) (h2 : c ∉ l) :
    c ∉ a :: l := by
  intro h
  rcases List.mem_cons.mp h with h | h
  · exact h1 h
  · exact h2 h

theorem digitChar_ne_Z (k : Nat) : digitChar k ≠ 'Z' := by
  unfold digitChar
  split <;> decide

theorem Z_not_mem_pad2 (n : Nat) : 'Z' ∉ pad2 n := by
  refine notMemCons (Ne.symm (digitChar_ne_Z _)) ?_
  exact notMemCons (Ne.symm (digitChar_ne_Z _)) (List.not_mem_nil _)

theorem Z_not_mem_pad3 (n : Nat) : 'Z' ∉ pad3 n := by
  refine notMemCons (Ne.symm (digitChar_ne_Z _)) ?_
  exact notMemCons (Ne.symm (digitChar_ne_Z _))
    (notMemCons (Ne.symm (digitChar_ne_Z _)) (List.not_mem_nil _))

theorem Z_not_mem_pad4 (n : Nat) : 'Z' ∉ pad4 n := by
  refine notMemCons (Ne.symm (digitChar_ne_Z _)) ?_
  refine notMemCons (Ne.symm (digitChar_ne_Z _)) ?_
  exact notMemCons (Ne.symm (digitChar_ne_Z _))
    (notMemCons (Ne.symm (digitChar_ne_Z _)) (List.not_mem_nil _))

theorem Z_not_mem_isoBody (m : Nat) : 'Z' ∉ isoBody m := by
  unfold isoBody
  refine notMemAppend (Z_not_mem_pad4 _) ?_
  refine notMemCons (by decide) ?_
  refine notMemAppend (Z_not_mem_pad2 _) ?_
  refine notMemCons (by decide) ?_
  refine notMemAppend (Z_not_mem_pad2 _) ?_
  refine notMemCons (by decide) ?_
  refine notMemAppend (Z_not_mem_pad2 _) ?_
  refine notMemCons (by decide) ?_
  refine notMemAppend (Z_not_mem_pad2 _) ?_
  refine notMemCons (by decide) ?_
  refine notMemAppend (Z_not_mem_pad2 _) ?_
  refine notMemCons (by decide) ?_
  exact Z_not_mem_pad3 _

theorem replFirstZ_of_not_mem (l : List Char) (h : 'Z' ∉ l) :
    replFirstZ (l ++ ['Z']) = l := by
  induction l with
  | nil => simp [replFirstZ]
  | cons c rest ih =>
    have hc : c ≠ 'Z' := fun hcz => h (hcz ▸ List.mem_cons_self c rest)
    have hr : 'Z' ∉ rest := fun hm => h (List.mem_cons_of_mem c hm)
    simp [replFirstZ, hc, ih hr]

theorem stripFirstZ_isoOfMs (m : Nat) : stripFirstZ (isoOfMs m) = ⟨isoBody m⟩ := by
  unfold stripFirstZ isoOfMs
  show (⟨replFirstZ (isoBody m ++ ['Z'])⟩ : String) = ⟨isoBody m⟩
  rw [replFirstZ_of_not_mem _ (Z_not_mem_isoBody m)]

theorem Z_not_in_stored_time (m : Nat) : 'Z' ∉ (stripFirstZ (isoOfMs m)).toList := by
  rw [stripFirstZ_isoOfMs]
  exact Z_not_mem_isoBody m

theorem emittedRows_append (a b : List Effect) :
    emittedRows (a ++ b) = emittedRows a ++ emittedRows b := by
  simp [emittedRows]

theorem netCount_append (a b : List Effect) :
    netCount (a ++ b) = netCount a + netCount b := by
  simp [netCount]

theorem emittedRows_ipTry (l : List (String × IPOutcome)) :
    emittedRows (ipTry l).2 = [] := by
  induction l with
  | nil => rfl
  | cons h rest ih =>
    obtain ⟨url, o⟩ := h
    unfold ipTry
    cases extractIP o
    · simpa [emittedRows] using ih
    · simp [emittedRows]

theorem netCount_ipTry (l : List (String × IPOutcome)) :
    netCount (ipTry l).2 ≤ l.length := by
  induction l with
  | nil => simp [ipTry, netCount]
  | cons h rest ih =>
    obtain ⟨url, o⟩ := h
    unfold ipTry
    cases extractIP o
    · simp only [netCount] at ih ⊢
      simp only [List.filter, List.length_cons]
      omega
    · simp [netCount]

theorem ipTry_fst (l : List (String × IPOutcome)) :
    (ipTry l).1 = specFirstSuccess (l.map Prod.snd) := by
  induction l with
  | nil => rfl
  | cons h rest ih =>
    obtain ⟨url, o⟩ := h
    unfold ipTry specFirstSuccess
    cases hx : extractIP o <;> simp [hx, ih]

/-- The cache hit path of `getClientIP`: no network attempt, no state
change. -/
theorem getClientIP_cached (env : TrackEnv) (s : TrackState) (ip : String)
    (h : s.cachedIP = some ip) : getClientIP env s = (ip, s, []) := by
  unfold getClientIP
  rw [h]

/-- The one spec-level IP value a session resolves to. -/
def specResolvedIP (env : TrackEnv) : String :=
  (specFirstSuccess [env.ipOut1, env.ipOut2, env.ipOut3]).getD "unknown"

/-- The cache miss path of `getClientIP` refines the spec's
first-success-wins resolution and caches its result. -/
theorem getClientIP_fresh (env : TrackEnv) (s : TrackState) (h : s.cachedIP = none) :
    getClientIP env s =
      (specResolvedIP env, { s with cachedIP := some (specResolvedIP env) },
       (ipTry (svcOutcomes env)).2) := by
  unfold getClientIP
  rw [h]
  have hf : (ipTry (svcOutcomes env)).1 =
      specFirstSuccess [env.ipOut1, env.ipOut2, env.ipOut3] := ipTry_fst _
  rcases hx : ipTry (svcOutcomes env) with ⟨r, fx⟩
  rw [hx] at hf
  cases r with
  | none => simp [specResolvedIP, ← hf]
  | some ip => simp [specResolvedIP, ← hf]

/-- Control-flow of `trackEvent` for an enabled environment, an
authenticated user, and an object descriptor, stated via the component
functions. -/
theorem trackEvent_enabled_obj (env : TrackEnv) (st : TrackState) (d : EventData)
    (uid : String) (hen : env.analyticsEnabled = true)
    (hau : env.authUser = .ok (some uid)) :
    trackEvent env st (.obj d) =
      ((match env.insertOutcome with
        | .throw e => .ok ⟨none, some (.exn e)⟩
        | .err e => .ok ⟨none, some (.store e)⟩
        | .ok => .ok ⟨none, none⟩),
       (getClientIP env (generateSessionId env st).2).2.1,
       (getClientIP env (generateSessionId env st).2).2.2 ++
         [.insertAttempt (mkClickstreamEvent env d uid (generateSessionId env st).1
           (stripFirstZ (isoOfMs (((env.nowMs : Int) - env.tzOffsetMin * 60000).toNat)))
           (getClientIP env (generateSessionId env st).2).1)]) := by
  unfold trackEvent
  rw [hau, hen]
  cases env.insertOutcome <;> simp

/-! ## Claims -/

/-- C2: the claim says `trackEvent` never throws for *every* descriptor,
including `null`. It fails: when analytics is disabled, the debug
`console.log` reads `eventData.event_name` outside the `try` block, so
`trackEvent(null)` throws a `TypeError` that propagates to the caller.
The second conjunct shows the intended discipline holds everywhere else on
this input: with analytics enabled the same `null` descriptor's property
read is thrown inside the `try` and is converted into `{data: null,
error}`. -/
theorem claim_C2_trackEvent_null_disabled_throws :
    trackEvent envDisabled stFresh .null =
      (.error (typeErrorRead "event_name"), stFresh, [])
    ∧ (trackEvent envA stFresh .null).1 =
        .ok ⟨none, some (.exn (typeErrorRead "event_context"))⟩ := by
  exact ⟨rfl, rfl⟩

/-- C3: with analytics enabled and no authenticated user, `trackEvent`
returns the `'No authenticated user'` error result, leaves the session/IP
state untouched, and produces no effect at all — in particular no store
write and no network attempt, and nothing is retained for later delivery. -/
theorem claim_C3_no_user_error_no_write (env : TrackEnv) (st : TrackState)
    (d : Descriptor) (hen : env.analyticsEnabled = true)
    (hau : env.authUser = .ok none) :
    trackEvent env st d =
      (.ok ⟨none, some (.str "No authenticated user")⟩, st, []) := by
  unfold trackEvent
  rw [hau, hen]
  simp

/-- Witness for C3 at a concrete environment. -/
theorem claim_C3_witness :
    trackEvent envNoUser stFresh .null =
      (.ok ⟨none, some (.str "No authenticated user")⟩, stFresh, []) :=
  claim_C3_no_user_error_no_write envNoUser stFresh .null rfl rfl

/-- C7: the persisted `description` of a convenience-emitter event keeps
the literal `'USER_ID'` placeholder produced by `getCurrentUserId` —
`trackEvent` never substitutes the authenticated user's id (here `u123`),
although the helper's comment says it will. Shown on
`trackCourseView(3, 'Intro to AI')`. -/
theorem claim_C7_description_placeholder :
    ((emittedRows (trackEvent envA stFresh
        (.obj (trackCourseViewD (.num 3) "Intro to AI"))).2.2).map (·.description) =
      ["The user with id 'USER_ID' viewed the course with id '3'."])
    ∧ jsIncludes "The user with id 'USER_ID' viewed the course with id '3'." "USER_ID" = true
    ∧ jsIncludes "The user with id 'USER_ID' viewed the course with id '3'." "u123" = false
    ∧ envA.authUser = .ok (some "u123") := by
  exact ⟨rfl, by decide, by decide, rfl⟩

/-- The engagement descriptor `Dashboard.handleEnrollClick` tries to emit
for course id 3. -/
def enrollD : EventData :=
  trackEngagementD "button" "clicked" "enroll-course-3"
    [("course_title", .str "Intro to AI")] 1700000000000

/-- C1: the claim fails on the code. `Dashboard.jsx` destructures
`trackEngagement` from `useClickstream()`, but the enabled hook returns
that capability under the key `engagement`, so the binding is `undefined`;
the enroll click's first `await` throws `TypeError`, the handler's `catch`
swallows it, and no engagement event (and no enrollment) happens. The
remaining conjuncts show the intent the claim describes is exactly what
the unreached emitter would have produced: `component = "Interaction"`,
an `event_name` containing `"clicked"`, and `additional_data.course_title`
equal to the clicked course's title. -/
theorem claim_C1_enroll_click_wiring :
    ¬ ("trackEngagement" ∈ clickstreamHookKeys true)
    ∧ handleEnrollClick true (some "u123") (.num 3) "Intro to AI" 1700000000000 =
        [.consoleError "Error enrolling in course:"]
    ∧ enrollD.component = some "Interaction"
    ∧ jsIncludes (jsOrS enrollD.event_name "") "clicked" = true
    ∧ jsGet enrollD.additional_data "course_title" = some (.str "Intro to AI") := by
  exact ⟨by decide, rfl, rfl, by decide, rfl⟩

/-- The ten-question quiz (question id, correct answer index) of the C9
scenario, and a submitted answer map that gets 7 of 10 right. -/
def demoQuestions : List (Nat × Nat) :=
  [(1, 0), (2, 0), (3, 0), (4, 0), (5, 0), (6, 0), (7, 0), (8, 0), (9, 0), (10, 0)]

/-- Selected answers: questions 1–7 answered correctly, 8–10 wrong. -/
def demoAnswers : List (Nat × Nat) :=
  [(1, 0), (2, 0), (3, 0), (4, 0), (5, 0), (6, 0), (7, 0), (8, 1), (9, 1), (10, 1)]

/-- C9: the claim fails on the code. `QuizComponent` destructures
`trackQuizEvent` from `useClickstream()`, but neither the enabled record
(which exposes `quizEvent`) nor the disabled stub carries that key, so on
submit the score state is set to 70 and then the call throws `TypeError`
with no surrounding `try`: no quiz-event descriptor is emitted at all.
The remaining conjuncts show the scoring and the threshold the claim
describes are exactly what the unreached `trackQuizEvent` emitter
computes: 7/10 rounds to 70, `additional_data.score = 70`,
`additional_data.passed = true`, and `passed` holds exactly when
`score ≥ 70`. -/
theorem claim_C9_quiz_submit_wiring :
    ¬ ("trackQuizEvent" ∈ clickstreamHookKeys true)
    ∧ ¬ ("trackQuizEvent" ∈ clickstreamHookKeys false)
    ∧ quizHandleSubmit true demoQuestions demoAnswers "Lesson 1" (some (.num 3)) (.num 9) =
        ([.setScore 70, .setSubmitted], some (typeErrorCall "trackQuizEvent"))
    ∧ quizScore 7 10 = 70
    ∧ jsGet (trackQuizEventD "completed" { score := 70 }).additional_data "score" =
        some (.num 70)
    ∧ jsGet (trackQuizEventD "completed" { score := 70 }).additional_data "passed" =
        some (.bool true)
    ∧ (∀ s : Int, jsGet (trackQuizEventD "completed" { score := s }).additional_data "passed" =
        some (.bool (decide (70 ≤ s)))) := by
  refine ⟨by decide, by decide, rfl, rfl, rfl, rfl, fun s => rfl⟩

theorem emittedRows_getClientIP (env : TrackEnv) (s : TrackState) :
    emittedRows (getClientIP env s).2.2 = [] := by
  unfold getClientIP
  cases hc : s.cachedIP
  · rcases hx : ipTry (svcOutcomes env) with ⟨r, fx⟩
    have h := emittedRows_ipTry (svcOutcomes env)
    rw [hx] at h
    cases r <;> simpa using h
  · rfl

theorem netCount_getClientIP (env : TrackEnv) (s : TrackState) :
    netCount (getClientIP env s).2.2 ≤ 3 := by
  unfold getClientIP
  cases hc : s.cachedIP
  · rcases hx : ipTry (svcOutcomes env) with ⟨r, fx⟩
    have h := netCount_ipTry (svcOutcomes env)
    rw [hx] at h
    cases r <;> simpa using h
  · simp [netCount]

theorem generateSessionId_storage (env : TrackEnv) (st : TrackState) :
    (generateSessionId env st).2.sessionStorage = some (generateSessionId env st).1 := by
  unfold generateSessionId
  cases hs : st.sessionStorage <;> simp [hs]

theorem generateSessionId_cachedIP (env : TrackEnv) (st : TrackState)
    (h : st.cachedIP = none) : (generateSessionId env st).2.cachedIP = none := by
  unfold generateSessionId
  cases hs : st.sessionStorage <;> simp [h]

/-- C4: the stored `time` of every tracked event is the ISO text of the
UTC instant with the timezone offset *subtracted* (converted before
formatting), with the trailing `Z` removed by `replace('Z', '')`; no `Z`
remains anywhere in the stored text. In particular, for an offset of
−120 minutes (UTC+2), the stored text is exactly the ISO rendering of the
UTC instant shifted forward by 120 minutes, without a `Z` suffix. -/
theorem claim_C4_local_time_no_Z (env : TrackEnv) (st : TrackState) (d : EventData)
    (uid : String) (hen : env.analyticsEnabled = true)
    (hau : env.authUser = .ok (some uid)) :
    ((emittedRows (trackEvent env st (.obj d)).2.2).map (·.time) =
      [stripFirstZ (isoOfMs (((env.nowMs : Int) - env.tzOffsetMin * 60000).toNat))])
    ∧ ('Z' ∉ (stripFirstZ (isoOfMs (((env.nowMs : Int) - env.tzOffsetMin * 60000).toNat))).toList)
    ∧ (env.tzOffsetMin = -120 →
        (emittedRows (trackEvent env st (.obj d)).2.2).map (·.time) =
          [stripFirstZ (isoOfMs (env.nowMs + 120 * 60000))]) := by
  have hrows : (emittedRows (trackEvent env st (.obj d)).2.2).map (·.time) =
      [stripFirstZ (isoOfMs (((env.nowMs : Int) - env.tzOffsetMin * 60000).toNat))] := by
    rw [trackEvent_enabled_obj env st d uid hen hau]
    dsimp only
    rw [emittedRows_append, emittedRows_getClientIP]
    simp [emittedRows, mkClickstreamEvent]
  refine ⟨hrows, Z_not_in_stored_time _, fun h120 => ?_⟩
  have harg : ((env.nowMs : Int) - env.tzOffsetMin * 60000).toNat =
      env.nowMs + 120 * 60000 := by
    rw [h120]; omega
  rw [hrows, harg]

/-- Witness for C4 at a concrete environment with offset −120. -/
theorem claim_C4_witness :
    ((emittedRows (trackEvent envA stFresh (.obj {})).2.2).map (·.time) =
      [stripFirstZ (isoOfMs (((envA.nowMs : Int) - envA.tzOffsetMin * 60000).toNat))])
    ∧ ('Z' ∉ (stripFirstZ (isoOfMs (((envA.nowMs : Int) - envA.tzOffsetMin * 60000).toNat))).toList)
    ∧ (envA.tzOffsetMin = -120 →
        (emittedRows (trackEvent envA stFresh (.obj {})).2.2).map (·.time) =
          [stripFirstZ (isoOfMs (envA.nowMs + 120 * 60000))]) :=
  claim_C4_local_time_no_Z envA stFresh {} "u123" rfl rfl

/-- C5: within one session (cache initially unresolved), the first
`trackEvent` call resolves the client IP by the ordered first-success-wins
walk over the three services (`specFirstSuccess`, written from the spec;
exhaustion gives the `"unknown"` sentinel), performs at most the three
network attempts, and caches the result; the second call performs zero
network attempts and persists the same `ip_address`, which equals the
resolved value guarded by JS truthiness and the sentinel check — so an
`"unknown"` resolution is persisted as `null` in both rows. -/
theorem claim_C5_ip_resolved_once (env1 env2 : TrackEnv) (st : TrackState)
    (d1 d2 : EventData) (u1 u2 : String)
    (hc : st.cachedIP = none)
    (he1 : env1.analyticsEnabled = true) (ha1 : env1.authUser = .ok (some u1))
    (he2 : env2.analyticsEnabled = true) (ha2 : env2.authUser = .ok (some u2)) :
    netCount (trackEvent env1 st (.obj d1)).2.2 ≤ 3
    ∧ (trackEvent env1 st (.obj d1)).2.1.cachedIP = some (specResolvedIP env1)
    ∧ netCount (trackEvent env2 (trackEvent env1 st (.obj d1)).2.1 (.obj d2)).2.2 = 0
    ∧ (emittedRows (trackEvent env2 (trackEvent env1 st (.obj d1)).2.1 (.obj d2)).2.2).map
        (·.ip_address)
      = (emittedRows (trackEvent env1 st (.obj d1)).2.2).map (·.ip_address)
    ∧ (emittedRows (trackEvent env1 st (.obj d1)).2.2).map (·.ip_address)
      = [if specResolvedIP env1 ≠ "" ∧ specResolvedIP env1 ≠ "unknown"
         then some (specResolvedIP env1) else none]
    ∧ (specResolvedIP env1 = "unknown" →
        (emittedRows (trackEvent env1 st (.obj d1)).2.2).map (·.ip_address) = [none]) := by
  have hm1 := trackEvent_enabled_obj env1 st d1 u1 he1 ha1
  have hs1c : (generateSessionId env1 st).2.cachedIP = none :=
    generateSessionId_cachedIP env1 st hc
  have hg1 := getClientIP_fresh env1 (generateSessionId env1 st).2 hs1c
  have hst1 : (trackEvent env1 st (.obj d1)).2.1 =
      { (generateSessionId env1 st).2 with cachedIP := some (specResolvedIP env1) } := by
    rw [hm1]
    dsimp only
    rw [hg1]
  have hstor := generateSessionId_storage env1 st
  have hsome : ((trackEvent env1 st (.obj d1)).2.1).sessionStorage =
      some (generateSessionId env1 st).1 := by
    rw [hst1]
    exact hstor
  have hgen2 : generateSessionId env2 (trackEvent env1 st (.obj d1)).2.1 =
      ((generateSessionId env1 st).1, (trackEvent env1 st (.obj d1)).2.1) := by
    unfold generateSessionId
    rw [hsome]
    rfl
  have hg2 : getClientIP env2 (generateSessionId env2 (trackEvent env1 st (.obj d1)).2.1).2 =
      (specResolvedIP env1, (trackEvent env1 st (.obj d1)).2.1, []) := by
    rw [hgen2]
    exact getClientIP_cached env2 _ _ (by rw [hst1])
  have hm2 := trackEvent_enabled_obj env2 (trackEvent env1 st (.obj d1)).2.1 d2 u2 he2 ha2
  rw [hg2] at hm2
  have hrows1 : (emittedRows (trackEvent env1 st (.obj d1)).2.2).map (·.ip_address)
      = [if specResolvedIP env1 ≠ "" ∧ specResolvedIP env1 ≠ "unknown"
         then some (specResolvedIP env1) else none] := by
    rw [hm1]
    dsimp only
    rw [emittedRows_append, emittedRows_getClientIP]
    rw [hg1]
    simp [emittedRows, mkClickstreamEvent]
  refine ⟨?_, ?_, ?_, ?_, hrows1, ?_⟩
  · rw [hm1]
    dsimp only
    rw [netCount_append, hg1]
    have h3 := netCount_ipTry (svcOutcomes env1)
    simp only [netCount, List.filter, List.length] at h3 ⊢
    omega
  · rw [hst1]
  · rw [hm2]
    dsimp only
    simp [netCount]
  · rw [hm2]
    dsimp only
    rw [hrows1]
    simp [emittedRows, mkClickstreamEvent, hgen2]
  · intro hunk
    rw [hrows1, hunk]
    simp

/-- Witness for C5: a concrete session whose first service fails and whose
second succeeds; the insert succeeds on the first call and returns an
error on the second. -/
theorem claim_C5_witness :
    netCount (trackEvent envA stFresh (.obj {})).2.2 ≤ 3
    ∧ (trackEvent envA stFresh (.obj {})).2.1.cachedIP = some (specResolvedIP envA)
    ∧ netCount (trackEvent { envA with insertOutcome := .err ⟨"dup"⟩ }
        (trackEvent envA stFresh (.obj {})).2.1 (.obj {})).2.2 = 0
    ∧ (emittedRows (trackEvent { envA with insertOutcome := .err ⟨"dup"⟩ }
        (trackEvent envA stFresh (.obj {})).2.1 (.obj {})).2.2).map (·.ip_address)
      = (emittedRows (trackEvent envA stFresh (.obj {})).2.2).map (·.ip_address)
    ∧ (emittedRows (trackEvent envA stFresh (.obj {})).2.2).map (·.ip_address)
      = [if specResolvedIP envA ≠ "" ∧ specResolvedIP envA ≠ "unknown"
         then some (specResolvedIP envA) else none]
    ∧ (specResolvedIP envA = "unknown" →
        (emittedRows (trackEvent envA stFresh (.obj {})).2.2).map (·.ip_address) = [none]) :=
  claim_C5_ip_resolved_once envA { envA with insertOutcome := .err ⟨"dup"⟩ }
    stFresh {} {} "u123" "u123" rfl rfl rfl rfl rfl

theorem pageViewCount_append (a b : List PVEvent) :
    pageViewCount (a ++ b) = pageViewCount a + pageViewCount b := by
  simp [pageViewCount]

theorem navCount_append (a b : List PVEvent) :
    navCount (a ++ b) = navCount a + navCount b := by
  simp [navCount]

/-- In every reachable post-mount state the `lastPage` ref agrees with the
effect dependency, and from such a state each render emits one page view
and one navigation exactly when the rendered path differs from the
previous one. -/
theorem pvRun_steady (paths : List String) : ∀ (last : String) (tracked : Bool),
    last ≠ "" → (∀ p ∈ paths, p ≠ "") →
    pageViewCount (pvRun ⟨last, tracked, some last⟩ paths).2 = changeCount last paths
    ∧ navCount (pvRun ⟨last, tracked, some last⟩ paths).2 = changeCount last paths := by
  induction paths with
  | nil => exact fun last tracked _ _ => ⟨rfl, rfl⟩
  | cons p rest ih =>
    intro last tracked hl hp
    by_cases hlp : last = p
    · subst hlp
      have hr : pvRender ⟨last, tracked, some last⟩ last = (⟨last, tracked, some last⟩, []) := by
        unfold pvRender
        simp
      have h := ih last tracked hl (fun q hq => hp q (List.mem_cons_of_mem _ hq))
      simp only [pvRun, hr]
      simpa [changeCount] using h
    · have hr : pvRender ⟨last, tracked, some last⟩ p =
          (⟨p, true, some p⟩, [PVEvent.pageView p (some last), PVEvent.nav last p]) := by
        unfold pvRender pvEffectBody
        simp [hlp, hl, Ne.symm]
      have h := ih p true (hp p (List.mem_cons_self _ _))
        (fun q hq => hp q (List.mem_cons_of_mem _ hq))
      have hpl : ¬(p = last) := fun hq => hlp hq.symm
      simp only [pvRun, hr]
      rw [pageViewCount_append, navCount_append, h.1, h.2]
      simp [pageViewCount, navCount, changeCount, hpl]

/-- C6 counterexample: the hook's refs initialize `lastPage` to the
current pathname, so on the initial path the page-view condition is never
met: mounting at `/` and rendering `/` twice in succession emits zero
page-view events, not exactly one as the claim states. -/
theorem claim_C6_counterexample :
    pageViewCount (pvMount "/" ["/"]).2 = 0
    ∧ ¬ (pageViewCount (pvMount "/" ["/"]).2 = 1) := by
  decide

/-- C6 amended: page-view and navigation events are emitted exactly once
per consecutive path change of the render sequence — so rendering the same
path twice in succession adds no second event (de-duplication), a render
sequence that never leaves the initial path emits none, and each path
change emits exactly one page view and one navigation. -/
theorem claim_C6_once_per_change (p0 : String) (paths : List String)
    (h0 : p0 ≠ "") (hp : ∀ p ∈ paths, p ≠ "") :
    pageViewCount (pvMount p0 paths).2 = changeCount p0 paths
    ∧ navCount (pvMount p0 paths).2 = changeCount p0 paths := by
  unfold pvMount
  have hr0 : pvRender ⟨p0, false, none⟩ p0 = (⟨p0, false, some p0⟩, []) := by
    unfold pvRender pvEffectBody
    simp
  have h := pvRun_steady paths p0 false h0 hp
  simp only [pvRun, hr0]
  simpa using h

/-- Witness for the amended C6 on a concrete render sequence with a
duplicate render of `/a`. -/
theorem claim_C6_witness :
    pageViewCount (pvMount "/" ["/a", "/a", "/b"]).2 = changeCount "/" ["/a", "/a", "/b"]
    ∧ navCount (pvMount "/" ["/a", "/a", "/b"]).2 = changeCount "/" ["/a", "/a", "/b"] :=
  claim_C6_once_per_change "/" ["/a", "/a", "/b"] (by decide) (by decide)

theorem runUnload_latched (path : String) (fires : List UnloadFire) :
    runUnload path true fires = [] := by
  induction fires with
  | nil => rfl
  | cons f rest ih => simpa [runUnload] using ih

theorem runUnload_false_bound (path : String) (fires : List UnloadFire) :
    (runUnload path false fires).length ≤ 1
    ∧ ((runUnload path false fires).all fun e => decide (2000 < e.1)) = true := by
  induction fires with
  | nil => exact ⟨by simp [runUnload], by simp [runUnload]⟩
  | cons f rest ih =>
    by_cases h2 : 2 < jsRoundSec f.elapsedMs
    · have h25 : 2000 < f.elapsedMs := by
        unfold jsRoundSec at h2
        omega
    
      cases hb : f.beacon
      · simp [runUnload, h2, hb, runUnload_latched]
      · simp [runUnload, h2, hb, runUnload_latched, h25]
    · simpa [runUnload, h2] using ih

/-- C8: over one page lifetime the unload handler emits at most one event
(the `unloadTracked` latch), every emitted unload event happened with
strictly more than 2000 ms elapsed on the page (the rounded time spent
must exceed 2), and a page visited for exactly 1 second emits zero unload
events. -/
theorem claim_C8_unload_once_over_threshold (path : String) (fires : List UnloadFire) :
    (runUnload path false fires).length ≤ 1
    ∧ ((runUnload path false fires).all fun e => decide (2000 < e.1)) = true
    ∧ runUnload path false [⟨1000, true⟩] = [] :=
  ⟨(runUnload_false_bound path fires).1, (runUnload_false_bound path fires).2, rfl⟩

theorem runErrors_at_cap (evs : List ErrInput) : runErrors 5 evs = (5, []) := by
  induction evs with
  | nil => rfl
  | cons e rest ih => cases e <;> simp [runErrors, errStep, ih]

theorem runErrors_append (a : List ErrInput) : ∀ (c : Nat) (b : List ErrInput),
    runErrors c (a ++ b) =
      ((runErrors (runErrors c a).1 b).1,
       (runErrors c a).2 ++ (runErrors (runErrors c a).1 b).2) := by
  induction a with
  | nil => intro c b; simp [runErrors]
  | cons e rest ih => intro c b; simp [runErrors, ih]

theorem errStep_fst (c : Nat) (e : ErrInput) (h : ¬ 5 ≤ c) :
    (errStep c e).1 = c + 1 := by
  cases e with
  | err m =>
    simp only [errStep, h, if_false]
    split <;> rfl
  | rej r =>
    simp only [errStep, h, if_false]
    split <;> rfl

theorem errStep_capped (c : Nat) (e : ErrInput) (h : 5 ≤ c) :
    errStep c e = (c, none) := by
  cases e <;> simp [errStep, h]

theorem runErrors_count (evs : List ErrInput) : ∀ c, c ≤ 5 →
    (runErrors c evs).1 = min (c + evs.length) 5 := by
  induction evs with
  | nil =>
    intro c hc
    simp [runErrors]
    omega
  | cons e rest ih =>
    intro c hc
    by_cases h5 : 5 ≤ c
    · have hc5 : c = 5 := le_antisymm hc h5
      subst hc5
      rw [runErrors_at_cap]
      simp
    · have hs := errStep_fst c e h5
      simp only [runErrors, hs]
      rw [ih (c + 1) (by omega)]
      simp only [List.length_cons]
      omega

theorem runErrors_len (evs : List ErrInput) : ∀ c,
    (runErrors c evs).2.length ≤ 5 - c := by
  induction evs with
  | nil => intro c; simp [runErrors]
  | cons e rest ih =>
    intro c
    by_cases h5 : 5 ≤ c
    · have hs := errStep_capped c e h5
      simp only [runErrors, hs, Option.toList_none, List.nil_append]
      exact ih c
    · have hs1 := errStep_fst c e h5
      have hlen := ih (errStep c e).1
      rw [hs1] at hlen
      have hs2 : (errStep c e).2.toList.length ≤ 1 := by
        cases (errStep c e).2 <;> simp
      simp only [runErrors, hs1, List.length_append]
      omega

theorem errStep_err_tracked (c : Nat) (m : String) (p : String × String)
    (hp : (errStep c (.err m)).2 = some p) :
    p = ("JavaScript Error", m) ∧ jsIncludes m "ResizeObserver" = false := by
  simp only [errStep] at hp
  split at hp
  · simp at hp
  · split at hp
    · simp at hp
    · rename_i hn
      simp only [Option.some.injEq] at hp
      subst hp
      refine ⟨rfl, ?_⟩
      cases hZ : jsIncludes m "ResizeObserver"
      · rfl
      · exact absurd (by rw [hZ, Bool.true_or]) hn

theorem errStep_rej_tracked (c : Nat) (r : String) (p : String × String)
    (hp : (errStep c (.rej r)).2 = some p) :
    p.1 = "Promise Rejection" := by
  simp only [errStep] at hp
  split at hp
  · simp at hp
  · split at hp
    · simp only [Option.some.injEq] at hp
      subst hp
      rfl
    · simp at hp

theorem runErrors_no_resize (evs : List ErrInput) : ∀ c, ∀ p ∈ (runErrors c evs).2,
    p.1 = "JavaScript Error" → jsIncludes p.2 "ResizeObserver" = false := by
  induction evs with
  | nil => intro c p hp; simp [runErrors] at hp
  | cons e rest ih =>
    intro c p hp htype
    simp only [runErrors, List.mem_append] at hp
    rcases hp with hp | hp
    · rcases hs : (errStep c e).2 with _ | q
      · rw [hs] at hp; simp at hp
      · rw [hs] at hp
        simp only [Option.toList_some, List.mem_singleton] at hp
        subst hp
        cases e with
        | err m =>
          obtain ⟨hq, hres⟩ := errStep_err_tracked c m p hs
          rw [hq]
          simpa [hq] using hres
        | rej r =>
          have := errStep_rej_tracked c r p hs
          rw [this] at htype
          exact absurd htype (by decide)
    · exact ih (errStep c e).1 p hp htype

/-- C10: over one page lifetime, at most 5 `trackError` calls ever happen;
the per-lifetime counter is incremented before the noise filter, so every
handler invocation below the cap consumes one unit of budget whether or
not it is tracked (final counter = `min length 5`); a tracked JavaScript
error never contains `"ResizeObserver"` (such errors are filtered out —
yet, per the counter equation, still consume budget, as the final conjunct
shows concretely: one noise error yields counter 1 and zero tracked
events); and once the counter reaches 5, later deliveries of any kind are
never tracked. -/
theorem claim_C10_error_cap_budget (evs more : List ErrInput) :
    (runErrors 0 evs).2.length ≤ 5
    ∧ (runErrors 0 evs).1 = min evs.length 5
    ∧ (∀ p ∈ (runErrors 0 evs).2, p.1 = "JavaScript Error" →
        jsIncludes p.2 "ResizeObserver" = false)
    ∧ (5 ≤ evs.length → (runErrors 0 (evs ++ more)).2 = (runErrors 0 evs).2)
    ∧ runErrors 0 [.err "ResizeObserver loop limit exceeded"] = (1, []) := by
  refine ⟨?_, ?_, runErrors_no_resize evs 0, ?_, by decide⟩
  · simpa using runErrors_len evs 0
  · simpa using runErrors_count evs 0 (by omega)
  · intro h5
    rw [runErrors_append]
    have hc : (runErrors 0 evs).1 = 5 := by
      rw [runErrors_count evs 0 (by omega)]
      omega
    rw [hc, runErrors_at_cap]
    simp

/-- Five errors that exhaust the budget, for the C10 witness. -/
def demoErrs : List ErrInput :=
  [.err "a", .err "b", .err "c", .err "d", .err "e"]

/-- Witness for C10: after five errors, a sixth is not tracked. -/
theorem claim_C10_witness :
    (runErrors 0 demoErrs).2.length ≤ 5
    ∧ (runErrors 0 demoErrs).1 = min demoErrs.length 5
    ∧ (∀ p ∈ (runErrors 0 demoErrs).2, p.1 = "JavaScript Error" →
        jsIncludes p.2 "ResizeObserver" = false)
    ∧ (runErrors 0 (demoErrs ++ [.err "f"])).2 = (runErrors 0 demoErrs).2
    ∧ runErrors 0 [.err "ResizeObserver loop limit exceeded"] = (1, []) := by
  have h := claim_C10_error_cap_budget demoErrs [.err "f"]
  exact ⟨h.1, h.2.1, h.2.2.1, h.2.2.2.1 (by decide), h.2.2.2.2⟩
